import Mathlib

/-!
Verification development for the 3S vehicle-position pipeline
(`lista_pos_vei_3S.py` and `ver_caminhoes.py`).

The Python code manipulates JSON data: open-ended records (dicts from
field name to JSON value), lists of such records (datasets), and the
HTTP response bodies.  We embed JSON values as the mutual inductive
`JVal`/`JArr`/`JObj`; a top-level vehicle-position record is
`Record := List (String × JVal)` (a Python dict in insertion order;
nested objects inside values use `JObj`).  Numbers are embedded as
exact rationals: the scripts only ever pass floats through unchanged
or parse decimal numerals, so no IEEE rounding is observable in the
claimed properties.

Python-semantics conventions used throughout:
 - `d.get(k)` returns `None` both when `k` is absent and when it maps
   to JSON null; `pyGet` therefore conflates the two into `JVal.null`,
   while `getField` keeps the distinction (needed for `.get(k, default)`).
 - `x or y` returns `x` when `x` is truthy, else `y` (`pyOr`).
 - truthiness: `None`, `False`, `0`, `""`, `[]`, `{}` are falsy.
-/

namespace Veic3S

mutual
inductive JVal : Type where
  | null : JVal
  | bool : Bool → JVal
  | num : Rat → JVal
  | str : String → JVal
  | arr : JArr → JVal
  | obj : JObj → JVal
inductive JArr : Type where
  | nil : JArr
  | cons : JVal → JArr → JArr
inductive JObj : Type where
  | nil : JObj
  | cons : String → JVal → JObj → JObj
end

deriving instance DecidableEq for JVal, JArr, JObj
deriving instance Repr for JVal, JArr, JObj

/-- A top-level API record: a Python dict in insertion order. -/
abbrev Record := List (String × JVal)

/-- Python truthiness of a JSON value (`bool(v)`). -/
def JVal.truthy : JVal → Bool
  | .null => false
  | .bool b => b
  | .num q => decide (q ≠ 0)
  | .str s => decide (s ≠ "")
  | .arr a => decide (a ≠ .nil)
  | .obj o => decide (o ≠ .nil)

/-- Dict lookup keeping absence distinct from null: `r[k]` when present. -/
def getField : Record → String → Option JVal
  | [], _ => none
  | (k, v) :: rest, key => if k = key then some v else getField rest key

/-- Python `r.get(k)`: absent keys and JSON null both come back as `None`. -/
def pyGet (r : Record) (k : String) : JVal :=
  match getField r k with
  | some v => v
  | none => JVal.null

/-- Python `x or y`: `x` when truthy, else `y`. -/
def pyOr (x y : JVal) : JVal := if x.truthy then x else y

/-- Embeds `API3S.obter_id_veiculo`: first truthy value among the
candidate identifier field spellings, in source order. -/
def obter_id_veiculo (posicao : Record) : JVal :=
  pyOr (pyGet posicao "idVeiculo")
    (pyOr (pyGet posicao "IdVeiculo")
      (pyOr (pyGet posicao "id")
        (pyOr (pyGet posicao "Id")
          (pyOr (pyGet posicao "VeiculoId") (pyGet posicao "veiculoId")))))

/-- Embeds `API3S.obter_placa`: first truthy value among the plate field
spellings, defaulting to the sentinel string. -/
def obter_placa (posicao : Record) : JVal :=
  pyOr (pyGet posicao "Placa")
    (pyOr (pyGet posicao "placa")
      (pyOr (pyGet posicao "PLACA") (JVal.str "SEM_PLACA")))

/-- A Python dict keyed by JSON values, in insertion order. -/
abbrev DictJ := List (JVal × Record)

/-- Dict lookup (`k in d`, `d[k]`). -/
def dlookup : DictJ → JVal → Option Record
  | [], _ => none
  | (k, v) :: rest, key => if k = key then some v else dlookup rest key

/-- Dict update `d[k] = v`: replaces in place when the key is present,
appends otherwise (CPython inserts new keys at the end). -/
def dinsert : DictJ → JVal → Record → DictJ
  | [], key, v => [(key, v)]
  | (k, w) :: rest, key, v =>
      if k = key then (key, v) :: rest else (k, w) :: dinsert rest key v

/-- Dict iteration `list(d.values())`, in insertion order. -/
def dvalues (m : DictJ) : List Record := m.map Prod.snd

/-- Embeds the `mapa_antigo` construction of `mesclar_posicoes`: index the
existing records by vehicle identifier, silently dropping records whose
identifier does not resolve to a truthy value. -/
def construir_mapa (m : DictJ) : List Record → DictJ
  | [] => m
  | posicao :: rest =>
      let id := obter_id_veiculo posicao
      construir_mapa (if id.truthy then dinsert m id posicao else m) rest

/-- The merge statistics printed by `mesclar_posicoes`. -/
structure MergeStats where
  novos : Nat
  atualizados : Nat
  mantidos : Nat
deriving DecidableEq, Repr

/-- Embeds the incoming-records loop of `mesclar_posicoes`: skip records
without a resolvable identifier; replace an indexed record when the new
one differs (deep `!=`), keep it when identical, insert otherwise. -/
def mesclar_loop : DictJ → MergeStats → List Record → DictJ × MergeStats
  | m, s, [] => (m, s)
  | m, s, posicao :: rest =>
      let id := obter_id_veiculo posicao
      if id.truthy then
        match dlookup m id with
        | some antiga =>
            if antiga ≠ posicao then
              mesclar_loop (dinsert m id posicao)
                { s with atualizados := s.atualizados + 1 } rest
            else
              mesclar_loop m { s with mantidos := s.mantidos + 1 } rest
        | none =>
            mesclar_loop (dinsert m id posicao)
              { s with novos := s.novos + 1 } rest
      else
        mesclar_loop m s rest

/-- Embeds `API3S.mesclar_posicoes`: index the existing records, upsert the
incoming ones, and return `list(mapa_antigo.values())` with the printed
new/updated/kept counters. -/
def mesclar_posicoes (posicoes_antigas posicoes_novas : List Record) :
    List Record × MergeStats :=
  let inicio := construir_mapa [] posicoes_antigas
  let fim := mesclar_loop inicio ⟨0, 0, 0⟩ posicoes_novas
  (dvalues fim.1, fim.2)

/-- Whether a JSON value is a string. -/
def JVal.isStr : JVal → Bool
  | .str _ => true
  | _ => false

/-- Code-point lexicographic comparison of strings as character lists;
this is Python's `<=` on `str` restricted to the characters compared
(CPython compares code points). -/
def strLe : List Char → List Char → Bool
  | [], _ => true
  | _ :: _, [] => false
  | a :: as, b :: bs =>
      if a.toNat = b.toNat then strLe as bs else decide (a.toNat < b.toNat)

/-- The sort key of a summary entry when it is a string (the only case
Python's sort accepts for mixed data; `obter_placa` yields a string
whenever the plate field is a string or absent). -/
def plateOf (r : Record) : String :=
  match pyGet r "Placa" with
  | .str s => s
  | _ => ""

/-- The comparison used by `resumo.sort(key=lambda x: x['Placa'])`.
Python's sort compares the keys with `<`, which succeeds when both keys
are strings (the situation this system produces: `obter_placa` falls
back to the string sentinel) and raises `TypeError` on mixed types; we
model the string comparison and totalise arbitrarily elsewhere, so the
non-string case carries no claim. -/
def placaLe (a b : Record) : Bool :=
  if (pyGet a "Placa").isStr then
    (pyGet b "Placa").isStr && strLe (plateOf a).toList (plateOf b).toList
  else true

/-- The pre-sort body of `API3S.gerar_resumo`: one `{'Placa': …,
'idVeiculo': …}` entry per record whose identifier resolves. -/
def resumoEntries (posicoes : List Record) : List Record :=
  posicoes.filterMap fun posicao =>
    let id := obter_id_veiculo posicao
    let placa := obter_placa posicao
    if id.truthy then some [("Placa", placa), ("idVeiculo", id)] else none

/-- Embeds `API3S.gerar_resumo`: build the entries, then
`resumo.sort(key=lambda x: x['Placa'])` — a stable sort by plate,
modelled by `List.mergeSort` (Python's Timsort is also a stable merge
sort, so the results coincide). -/
def gerar_resumo (posicoes : List Record) : List Record :=
  (resumoEntries posicoes).mergeSort placaLe

/-!  The map renderer (`ver_caminhoes.py`, `gerar_mapa`). -/

/-- Characters stripped by Python's `float(str)` conversion (ASCII
whitespace; `float` also strips some further Unicode space characters,
which no claim exercises). -/
def isSpaceChar (c : Char) : Bool :=
  c == ' ' || c == '\t' || c == '\n' || c == '\r' || c == '\x0b' || c == '\x0c'

/-- Strip leading and trailing whitespace. -/
def trimChars (cs : List Char) : List Char :=
  ((cs.dropWhile isSpaceChar).reverse.dropWhile isSpaceChar).reverse

/-- Split an optional leading sign: returns (is-negative, rest). -/
def parseSign : List Char → Bool × List Char
  | '-' :: cs => (true, cs)
  | '+' :: cs => (false, cs)
  | cs => (false, cs)

/-- The digits of a decimal numeral accepted by `float(...)`:
optional sign, integer digits, optional fraction, optional exponent.
Scanning is kept separate from numeric evaluation. -/
structure DecNum where
  neg : Bool
  ip : List Char
  fp : List Char
  ex : Option (Bool × List Char)
deriving DecidableEq, Repr

/-- Scan the mantissa: `digits`, `digits.digits?` or `.digits`. Returns
the integer and fraction digit runs. -/
def scanMantissa (cs : List Char) : Option (List Char × List Char) :=
  let ip := cs.takeWhile fun c => c.isDigit
  match cs.dropWhile (fun c => c.isDigit) with
  | [] => if ip.isEmpty then none else some (ip, [])
  | '.' :: fp =>
      if fp.all (fun c => c.isDigit) && !(ip.isEmpty && fp.isEmpty) then
        some (ip, fp)
      else none
  | _ => none

/-- Scan a decimal numeral in the subset of Python's `float(...)` grammar
exercised here (no `inf`/`nan`, which have no rational value, and no
underscore separators). -/
def scanFloat (cs : List Char) : Option DecNum :=
  let (neg, cs1) := parseSign (trimChars cs)
  let mant := cs1.takeWhile fun c => c != 'e' && c != 'E'
  match scanMantissa mant with
  | none => none
  | some (ip, fp) =>
      match cs1.dropWhile (fun c => c != 'e' && c != 'E') with
      | [] => some ⟨neg, ip, fp, none⟩
      | _ :: ecs =>
          let (eneg, ecs1) := parseSign ecs
          if !ecs1.isEmpty && ecs1.all (fun c => c.isDigit) then
            some ⟨neg, ip, fp, some (eneg, ecs1)⟩
          else none

/-- Numeric value of a digit run. -/
def natOfDigits (cs : List Char) : Nat :=
  cs.foldl (fun n c => 10 * n + (c.toNat - 48)) 0

/-- Numeric value of a scanned decimal numeral, as an exact rational. -/
def valueOf (d : DecNum) : Rat :=
  let m : Rat := (natOfDigits d.ip : Rat) + (natOfDigits d.fp : Rat) / (10 : Rat) ^ d.fp.length
  let signed := if d.neg then -m else m
  match d.ex with
  | none => signed
  | some (eneg, ecs) =>
      let e : Int := if eneg then -(natOfDigits ecs : Int) else (natOfDigits ecs : Int)
      signed * (10 : Rat) ^ e

/-- Python's `float(s)` on the decimal-numeral subset. -/
def parsePyFloat (cs : List Char) : Option Rat :=
  (scanFloat cs).map valueOf

/-- Embeds `float(str(raw).replace(',', '.'))` as applied to a JSON value
by `gerar_mapa`, with `None` standing for the raised `ValueError`:
a string goes through the comma-to-period replacement and the float
parse; a number already round-trips through `str` unchanged; `str()` of
any other value is not a valid float literal. -/
def parseCoord (v : JVal) : Option Rat :=
  match v with
  | .num q => some q
  | .str s => parsePyFloat (s.toList.map fun c => if c == ',' then '.' else c)
  | _ => none

/-- Embeds the marker loop of `gerar_mapa`: the coordinates accumulated in
`coordenadas_validas`, one pair per plotted marker.  A record is plotted
only when both raw values are truthy and both parse; a `ValueError` in
either parse skips just that record (`continue`). -/
def gerar_mapa_coords (veiculos : List Record) : List (Rat × Rat) :=
  veiculos.filterMap fun v =>
    let lat_raw := pyGet v "Latitude"
    let lon_raw := pyGet v "Longitude"
    if lat_raw.truthy && lon_raw.truthy then
      match parseCoord lat_raw, parseCoord lon_raw with
      | some lat, some lon => some (lat, lon)
      | _, _ => none
    else none

/-- Embeds the auto-fit step of `gerar_mapa`: `fit_bounds` is invoked on
the collected coordinates exactly when some coordinate was collected;
otherwise the map keeps its default view (`none`). -/
def ajuste_viewport (coords : List (Rat × Rat)) : Option (List (Rat × Rat)) :=
  if coords.isEmpty then none else some coords

/-!  The bulk fetcher (`API3S.obter_todas_posicoes`). -/

/-- One scripted outcome of the `requests.get` call: `fail` is any
`RequestException` (timeout, connection error, or a non-2xx status via
`raise_for_status`), `ok body` a successful response with parsed JSON
`body`. -/
inductive ApiResp : Type where
  | fail : ApiResp
  | ok : JVal → ApiResp
deriving DecidableEq, Repr

/-- Configured pause after hitting the rate-limit ceiling, seconds. -/
def tempo_espera : Nat := 62

/-- Configured call ceiling per window. -/
def max_chamadas_por_minuto : Nat := 9

/-- Embeds `API3S.controlar_rate_limit` acting on the call counter:
returns the new counter and the pauses slept (62 s when the ceiling is
reached, which also resets the counter). -/
def controlar_rate_limit (contador : Nat) : Nat × List Nat :=
  let c := contador + 1
  if max_chamadas_por_minuto ≤ c then (0, [tempo_espera]) else (c, [])

/-- Lookup in a nested JSON object. -/
def jobjGet : JObj → String → Option JVal
  | .nil, _ => none
  | .cons k v rest, key => if k = key then some v else jobjGet rest key

/-- Embeds the embedded-error probe of `obter_todas_posicoes`:
`isinstance(posicoes, list) and len(posicoes) > 0` and then
`'ErroProcessamento' in posicoes[0]`, giving the error value when
present.  (When the first element is not an object Python's `in` either
answers false or raises; no such body occurs in this API, and no claim
exercises it.) -/
def bodyErro (body : JVal) : Option JVal :=
  match body with
  | .arr (.cons (.obj fs) _) => jobjGet fs "ErroProcessamento"
  | _ => none

/-- Python substring test `pat in s` on character lists. -/
def isPrefixChars : List Char → List Char → Bool
  | [], _ => true
  | _ :: _, [] => false
  | a :: as, b :: bs => a == b && isPrefixChars as bs

/-- Python substring test `pat in s` on character lists. -/
def containsChars : List Char → List Char → Bool
  | s, pat =>
      if isPrefixChars pat s then true
      else
        match s with
        | [] => false
        | _ :: rest => containsChars rest pat

/-- Embeds `'3S.1040' in erro`.  (The API delivers the error as a string;
on a non-string Python would raise `TypeError`, which no claim
exercises — we let the probe answer false, falling through to the
terminal-error branch.) -/
def ehErroLimite (erro : JVal) : Bool :=
  match erro with
  | .str e => containsChars e.toList "3S.1040".toList
  | _ => false

/-- Observable outcome of `obter_todas_posicoes`: the returned JSON (or
`None`), the final call counter, and the sequence of pauses slept, in
order. -/
structure FetchOut where
  result : Option JVal
  contador : Nat
  pausas : List Nat
deriving DecidableEq, Repr

/-- Embeds the retry loop of `obter_todas_posicoes`.  The first argument
is the remaining attempt budget `max_tentativas - tentativa`; the second
the call counter `self.contador_chamadas`; the third the script of
transport outcomes, consumed one per request (an exhausted script
behaves as a transport failure).  On `ok`: `controlar_rate_limit` runs,
then a rate-limit error in the body sleeps 62 s, zeroes the counter and
loops with `tentativa += 1`; any other embedded error returns `None`;
otherwise the body is returned.  On `fail`: `tentativa += 1` and a 5 s
back-off when budget remains. -/
def fetchLoop : Nat → Nat → List ApiResp → FetchOut
  | 0, contador, _ => ⟨none, contador, []⟩
  | n + 1, contador, resps =>
      match resps with
      | .ok body :: rest =>
          let rl := controlar_rate_limit contador
          match bodyErro body with
          | some erro =>
              if ehErroLimite erro then
                let inner := fetchLoop n 0 rest
                ⟨inner.result, inner.contador, rl.2 ++ tempo_espera :: inner.pausas⟩
              else ⟨none, rl.1, rl.2⟩
          | none => ⟨some body, rl.1, rl.2⟩
      | .fail :: rest =>
          let inner := fetchLoop n contador rest
          ⟨inner.result, inner.contador, (if n = 0 then [] else [5]) ++ inner.pausas⟩
      | [] =>
          let inner := fetchLoop n contador []
          ⟨inner.result, inner.contador, (if n = 0 then [] else [5]) ++ inner.pausas⟩

/-- Embeds `obter_todas_posicoes` after a token was obtained: the loop
starts with `max_tentativas = 3` attempts and this run's call counter
(0 at the start of a run). -/
def obter_todas_posicoes (resps : List ApiResp) : FetchOut :=
  fetchLoop 3 0 resps

/-!  The orchestrator (`API3S.processar_todas_posicoes`). -/

/-- Full-dataset output file name. -/
def arquivo_posicoes : String := "posicoes_veiculos.json"

/-- Summary output file name. -/
def arquivo_resumo : String := "veiculos_resumo.json"

/-- Observable outcome of a run: the returned dataset and the file writes
performed, in order (file name and the record list dumped to it). -/
structure RunOutcome where
  retorno : List Record
  escritas : List (String × List Record)
deriving DecidableEq, Repr

/-- Embeds `processar_todas_posicoes`, parameterised by the already
loaded existing dataset and by the fetch outcome (`None` or the list of
records; this API's successful bodies are JSON arrays of objects).
`if not posicoes_novas:` aborts both on `None` and on an empty list,
returning the existing dataset with no write; otherwise it merges,
writes the full dataset, then derives and writes the summary. -/
def processar_todas_posicoes (posicoes_antigas : List Record)
    (posicoes_novas : Option (List Record)) : RunOutcome :=
  match posicoes_novas with
  | none => ⟨posicoes_antigas, []⟩
  | some novas =>
      if novas.isEmpty then ⟨posicoes_antigas, []⟩
      else
        let finais := (mesclar_posicoes posicoes_antigas novas).1
        let resumo := gerar_resumo finais
        ⟨finais, [(arquivo_posicoes, finais), (arquivo_resumo, resumo)]⟩

/-!  Helper lemmas about the merge loop. -/

/-- One unfolding step of the incoming-records loop. -/
theorem mesclar_loop_cons (m : DictJ) (s : MergeStats) (p : Record) (rest : List Record) :
    mesclar_loop m s (p :: rest) =
      (if (obter_id_veiculo p).truthy then
        match dlookup m (obter_id_veiculo p) with
        | some antiga =>
            if antiga ≠ p then
              mesclar_loop (dinsert m (obter_id_veiculo p) p)
                { s with atualizados := s.atualizados + 1 } rest
            else mesclar_loop m { s with mantidos := s.mantidos + 1 } rest
        | none =>
            mesclar_loop (dinsert m (obter_id_veiculo p) p)
              { s with novos := s.novos + 1 } rest
      else mesclar_loop m s rest) := rfl

/-- An incoming record without a resolvable identifier is skipped at any
position of the incoming list: the loop ignores it entirely. -/
theorem mesclar_loop_skip (M : Record) (hM : (obter_id_veiculo M).truthy = false)
    (pre : List Record) :
    ∀ (post : List Record) (m : DictJ) (s : MergeStats),
      mesclar_loop m s (pre ++ M :: post) = mesclar_loop m s (pre ++ post) := by
  induction pre with
  | nil => intro post m s; simp [mesclar_loop_cons, hM]
  | cons p pre ih =>
      intro post m s
      rw [List.cons_append, List.cons_append, mesclar_loop_cons, mesclar_loop_cons]
      cases h : (obter_id_veiculo p).truthy with
      | false => simp only [Bool.false_eq_true, if_false]; exact ih post m s
      | true =>
          simp only [if_true]
          cases hl : dlookup m (obter_id_veiculo p) with
          | none => exact ih post _ _
          | some antiga =>
              by_cases he : antiga = p
              · simp only [he, ne_eq, not_true_eq_false, ite_false]
                exact ih post _ _
              · simp only [ne_eq, he, not_false_eq_true, ite_true]
                exact ih post _ _

/-- C1: merge inserts an incoming keyed record when its key is absent
(counted as new), replaces the indexed record when the key is present and
the records differ under deep equality (counted as updated), leaves it
unchanged when identical (counted as kept), and skips incoming records
without a resolvable identifier without merging or reporting them; in
particular, for one existing record `E` and one incoming record `N`
sharing the same key, the merge output is exactly `[N]`. -/
theorem C1_merge_upsert :
    (∀ E N : Record, (obter_id_veiculo E).truthy = true →
        obter_id_veiculo N = obter_id_veiculo E →
        (mesclar_posicoes [E] [N]).1 = [N]) ∧
    (∀ N : Record, (obter_id_veiculo N).truthy = true →
        mesclar_posicoes [] [N] = ([N], ⟨1, 0, 0⟩)) ∧
    (∀ E N : Record, (obter_id_veiculo E).truthy = true →
        obter_id_veiculo N = obter_id_veiculo E → N ≠ E →
        mesclar_posicoes [E] [N] = ([N], ⟨0, 1, 0⟩)) ∧
    (∀ E : Record, (obter_id_veiculo E).truthy = true →
        mesclar_posicoes [E] [E] = ([E], ⟨0, 0, 1⟩)) ∧
    (∀ (ex pre post : List Record) (M : Record),
        (obter_id_veiculo M).truthy = false →
        mesclar_posicoes ex (pre ++ M :: post) = mesclar_posicoes ex (pre ++ post)) := by
  refine ⟨?_, ?_, ?_, ?_, ?_⟩
  · intro E N ht hk
    by_cases he : E = N
    · subst he
      simp [mesclar_posicoes, construir_mapa, mesclar_loop, dlookup, dinsert, dvalues, ht, hk]
    · simp [mesclar_posicoes, construir_mapa, mesclar_loop, dlookup, dinsert, dvalues, ht, hk, he]
  · intro N ht
    simp [mesclar_posicoes, construir_mapa, mesclar_loop, dlookup, dinsert, dvalues, ht]
  · intro E N ht hk hne
    simp [mesclar_posicoes, construir_mapa, mesclar_loop, dlookup, dinsert, dvalues, ht, hk,
      Ne.symm hne]
  · intro E ht
    simp [mesclar_posicoes, construir_mapa, mesclar_loop, dlookup, dinsert, dvalues, ht]
  · intro ex pre post M hM
    simp only [mesclar_posicoes]
    rw [mesclar_loop_skip M hM pre]

/-- Witness for C1 at concrete records sharing the key "7". -/
theorem C1_merge_upsert_witness :
    (mesclar_posicoes [[("idVeiculo", JVal.str "7"), ("a", JVal.str "1")]]
        [[("idVeiculo", JVal.str "7"), ("a", JVal.str "2")]]).1 =
      [[("idVeiculo", JVal.str "7"), ("a", JVal.str "2")]] ∧
    mesclar_posicoes [] [[("idVeiculo", JVal.str "7"), ("a", JVal.str "2")]] =
      ([[("idVeiculo", JVal.str "7"), ("a", JVal.str "2")]], ⟨1, 0, 0⟩) ∧
    mesclar_posicoes [[("idVeiculo", JVal.str "7"), ("a", JVal.str "1")]]
        [[("idVeiculo", JVal.str "7"), ("a", JVal.str "2")]] =
      ([[("idVeiculo", JVal.str "7"), ("a", JVal.str "2")]], ⟨0, 1, 0⟩) ∧
    mesclar_posicoes [[("idVeiculo", JVal.str "7"), ("a", JVal.str "1")]]
        [[("idVeiculo", JVal.str "7"), ("a", JVal.str "1")]] =
      ([[("idVeiculo", JVal.str "7"), ("a", JVal.str "1")]], ⟨0, 0, 1⟩) ∧
    mesclar_posicoes [[("idVeiculo", JVal.str "7"), ("a", JVal.str "1")]]
        ([[("x", JVal.str "v")]] ++ [[("idVeiculo", JVal.str "7"), ("a", JVal.str "2")]]) =
      mesclar_posicoes [[("idVeiculo", JVal.str "7"), ("a", JVal.str "1")]]
        ([] ++ [[("idVeiculo", JVal.str "7"), ("a", JVal.str "2")]]) :=
  ⟨C1_merge_upsert.1 _ _ (by decide) (by decide),
   C1_merge_upsert.2.1 _ (by decide),
   C1_merge_upsert.2.2.1 _ _ (by decide) (by decide) (by decide),
   C1_merge_upsert.2.2.2.1 _ (by decide),
   C1_merge_upsert.2.2.2.2 _ [] [[("idVeiculo", JVal.str "7"), ("a", JVal.str "2")]]
     [("x", JVal.str "v")] (by decide)⟩

/-- C6: when the fetch step yields `None`, the orchestrator returns the
previously loaded dataset unchanged and performs no file write, so the
on-disk dataset is untouched. -/
theorem C6_fetch_none_preserva (posicoes_antigas : List Record) :
    processar_todas_posicoes posicoes_antigas none =
      { retorno := posicoes_antigas, escritas := [] } := rfl

/-- C8: a fetch that returns an empty list is treated like `None` by
`if not posicoes_novas:` — the run aborts before the merge, nothing is
written to either output file, and the existing dataset is returned
unchanged. -/
theorem C8_fetch_vazio_preserva (posicoes_antigas : List Record) :
    processar_todas_posicoes posicoes_antigas (some []) =
      { retorno := posicoes_antigas, escritas := [] } := rfl

/-- C2 as stated is false: the embedded rate-limit branch executes
`tentativa += 1` before `continue`, so the pause-and-retry does consume
one of the 3 attempts.  With the script (rate-limit body, timeout,
timeout, good body) the loop exhausts its budget and yields `None`,
whereas the same transport outcomes with 3 full attempts available do
reach the good body. -/
theorem C2_counterexample :
    (obter_todas_posicoes
        [.ok (.arr (.cons (.obj (.cons "ErroProcessamento"
            (.str "3S.1040 - Excesso de chamadas") .nil)) .nil)),
         .fail, .fail,
         .ok (.arr (.cons (.obj (.cons "Placa" (.str "ABC1234") .nil)) .nil))]).result
      = none ∧
    (obter_todas_posicoes
        [.fail, .fail,
         .ok (.arr (.cons (.obj (.cons "Placa" (.str "ABC1234") .nil)) .nil))]).result
      = some (.arr (.cons (.obj (.cons "Placa" (.str "ABC1234") .nil)) .nil)) := by
  decide

/-- C2 amended: on a response whose body embeds the rate-limit error code
3S.1040, the fetcher pauses for the fixed 62 s wait, resets the internal
call counter to zero, and retries — but the retry consumes one of the 3
attempts (`tentativa += 1`), so after a recovery only the remaining
attempts, not a fresh budget of 3, are available for transport
failures. -/
theorem C2_rate_limit_consome_tentativa (n contador : Nat) (rest : List ApiResp)
    (body erro : JVal) (hb : bodyErro body = some erro)
    (hrl : ehErroLimite erro = true) :
    fetchLoop (n + 1) contador (.ok body :: rest) =
      { result := (fetchLoop n 0 rest).result,
        contador := (fetchLoop n 0 rest).contador,
        pausas := (controlar_rate_limit contador).2 ++
          tempo_espera :: (fetchLoop n 0 rest).pausas } := by
  simp only [fetchLoop]
  rw [hb]
  simp [hrl]

/-- Witness for the amended C2: a concrete rate-limited response consumes
an attempt while pausing 62 s and zeroing the counter. -/
theorem C2_rate_limit_consome_tentativa_witness :
    bodyErro (.arr (.cons (.obj (.cons "ErroProcessamento"
        (.str "3S.1040 - Excesso de chamadas") .nil)) .nil)) =
      some (.str "3S.1040 - Excesso de chamadas") ∧
    ehErroLimite (.str "3S.1040 - Excesso de chamadas") = true ∧
    fetchLoop 3 5
        [.ok (.arr (.cons (.obj (.cons "ErroProcessamento"
            (.str "3S.1040 - Excesso de chamadas") .nil)) .nil)), .fail] =
      { result := (fetchLoop 2 0 [.fail]).result,
        contador := (fetchLoop 2 0 [.fail]).contador,
        pausas := (controlar_rate_limit 5).2 ++
          tempo_espera :: (fetchLoop 2 0 [.fail]).pausas } :=
  ⟨by decide, by decide,
   C2_rate_limit_consome_tentativa 2 5 [.fail]
     (.arr (.cons (.obj (.cons "ErroProcessamento"
         (.str "3S.1040 - Excesso de chamadas") .nil)) .nil))
     (.str "3S.1040 - Excesso de chamadas") (by decide) (by decide)⟩

/-!  Dictionary and index lemmas shared by the merge claims. -/

/-- One unfolding step of the index construction. -/
theorem construir_mapa_cons (m : DictJ) (p : Record) (rest : List Record) :
    construir_mapa m (p :: rest) =
      construir_mapa
        (if (obter_id_veiculo p).truthy then dinsert m (obter_id_veiculo p) p else m)
        rest := rfl

/-- Lookup skips a prefix in which the key is absent. -/
theorem dlookup_append_of_none (m₁ m₂ : DictJ) (k : JVal) (h : dlookup m₁ k = none) :
    dlookup (m₁ ++ m₂) k = dlookup m₂ k := by
  induction m₁ with
  | nil => simp
  | cons kv m₁ ih =>
      obtain ⟨k', v'⟩ := kv
      by_cases hk : k' = k
      · simp [dlookup, hk] at h
      · simp only [dlookup, hk, if_neg, ite_false] at h
        simp only [List.cons_append, dlookup, hk, ite_false]
        exact ih h

/-- Inserting an absent key appends the binding (CPython dict order). -/
theorem dinsert_of_none (m : DictJ) (k : JVal) (v : Record) (h : dlookup m k = none) :
    dinsert m k v = m ++ [(k, v)] := by
  induction m with
  | nil => rfl
  | cons kv m ih =>
      obtain ⟨k', v'⟩ := kv
      by_cases hk : k' = k
      · simp [dlookup, hk] at h
      · simp only [dlookup, hk, ite_false] at h
        simp [dinsert, hk, ih h]

/-- Any binding of an updated dict is an old binding or the new one. -/
theorem mem_dinsert (m : DictJ) (k : JVal) (v : Record) (kv : JVal × Record)
    (h : kv ∈ dinsert m k v) : kv ∈ m ∨ kv = (k, v) := by
  induction m with
  | nil =>
      simp [dinsert] at h
      right; simp [h]
  | cons kw m ih =>
      obtain ⟨k', v'⟩ := kw
      by_cases hk : k' = k
      · simp only [dinsert, hk, ite_true] at h
        rcases List.mem_cons.mp h with h | h
        · right; exact h
        · left; exact List.mem_cons_of_mem _ h
      · simp only [dinsert, hk, ite_false] at h
        rcases List.mem_cons.mp h with h | h
        · left; simp [h]
        · rcases ih h with h | h
          · left; exact List.mem_cons_of_mem _ h
          · right; exact h

/-- Indexing records with fresh, pairwise-distinct truthy identifiers
appends one binding per record, in order. -/
theorem construir_mapa_append (D : List Record) :
    ∀ m : DictJ,
      (∀ r ∈ D, (obter_id_veiculo r).truthy = true) →
      (D.map obter_id_veiculo).Nodup →
      (∀ r ∈ D, dlookup m (obter_id_veiculo r) = none) →
      construir_mapa m D = m ++ (D.map fun r => (obter_id_veiculo r, r)) := by
  induction D with
  | nil => intro m _ _ _; simp [construir_mapa]
  | cons p D ih =>
      intro m ht hnd habs
      have htp : (obter_id_veiculo p).truthy = true := ht p (by simp)
      rw [construir_mapa_cons]
      simp only [htp, if_true]
      rw [dinsert_of_none m _ p (habs p (by simp))]
      have hhead : obter_id_veiculo p ∉ D.map obter_id_veiculo :=
        (List.nodup_cons.mp (by simpa using hnd)).1
      rw [ih (m ++ [(obter_id_veiculo p, p)])
            (fun r hr => ht r (List.mem_cons_of_mem _ hr))
            (List.nodup_cons.mp (by simpa using hnd)).2
            ?habs]
      · simp
      · intro r hr
        rw [dlookup_append_of_none _ _ _ (habs r (List.mem_cons_of_mem _ hr))]
        have hne : obter_id_veiculo p ≠ obter_id_veiculo r := by
          intro he
          exact hhead (he ▸ List.mem_map_of_mem _ hr)
        simp [dlookup, hne]

/-- In the index of a dataset with pairwise-distinct identifiers, each
record is found under its own identifier. -/
theorem dlookup_pares (D : List Record) (p : Record)
    (hnd : (D.map obter_id_veiculo).Nodup) (hp : p ∈ D) :
    dlookup (D.map fun r => (obter_id_veiculo r, r)) (obter_id_veiculo p) = some p := by
  induction D with
  | nil => simp at hp
  | cons q D ih =>
      rw [List.map_cons, List.nodup_cons] at hnd
      obtain ⟨hhead, htail⟩ := hnd
      rcases List.mem_cons.mp hp with rfl | hp
      · simp [dlookup]
      · have hne : obter_id_veiculo q ≠ obter_id_veiculo p := by
          intro he
          exact hhead (he ▸ List.mem_map_of_mem _ hp)
        simp only [List.map_cons, dlookup, hne, ite_false]
        exact ih htail hp

/-- Incoming records already present with identical content are all
counted as kept and leave the index unchanged. -/
theorem mesclar_loop_kept (D : List Record) :
    ∀ (m : DictJ) (s : MergeStats),
      (∀ p ∈ D, (obter_id_veiculo p).truthy = true ∧
        dlookup m (obter_id_veiculo p) = some p) →
      mesclar_loop m s D = (m, ⟨s.novos, s.atualizados, s.mantidos + D.length⟩) := by
  induction D with
  | nil => intro m s _; simp [mesclar_loop]
  | cons p D ih =>
      intro m s h
      obtain ⟨htp, hlp⟩ := h p (by simp)
      rw [mesclar_loop_cons]
      simp only [htp, if_true]
      rw [hlp]
      simp only [ne_eq, not_true_eq_false, ite_false]
      have hlen : s.mantidos + 1 + D.length = s.mantidos + (p :: D).length := by
        simp only [List.length_cons]; omega
      rw [ih m _ (fun q hq => h q (List.mem_cons_of_mem _ hq)), hlen]

/-- A batch of incoming records without resolvable identifiers is ignored
entirely. -/
theorem mesclar_loop_all_skip (D : List Record) :
    ∀ (m : DictJ) (s : MergeStats),
      (∀ p ∈ D, (obter_id_veiculo p).truthy = false) →
      mesclar_loop m s D = (m, s) := by
  induction D with
  | nil => intro m s _; rfl
  | cons p D ih =>
      intro m s h
      rw [mesclar_loop_cons]
      simp only [h p (by simp), Bool.false_eq_true, if_false]
      exact ih m s fun q hq => h q (List.mem_cons_of_mem _ hq)

/-- The index construction only stores records whose identifier resolves. -/
theorem construir_mapa_truthy (D : List Record) :
    ∀ m : DictJ, (∀ kv ∈ m, (obter_id_veiculo kv.2).truthy = true) →
      ∀ kv ∈ construir_mapa m D, (obter_id_veiculo kv.2).truthy = true := by
  induction D with
  | nil => intro m hm kv hkv; exact hm kv hkv
  | cons p D ih =>
      intro m hm kv hkv
      rw [construir_mapa_cons] at hkv
      cases htp : (obter_id_veiculo p).truthy with
      | false =>
          simp only [htp, Bool.false_eq_true, if_false] at hkv
          exact ih m hm kv hkv
      | true =>
          simp only [htp, if_true] at hkv
          refine ih _ ?_ kv hkv
          intro kw hkw
          rcases mem_dinsert _ _ _ _ hkw with h | h
          · exact hm kw h
          · rw [h]; exact htp

/-- The merge loop only stores records whose identifier resolves. -/
theorem mesclar_loop_truthy (D : List Record) :
    ∀ (m : DictJ) (s : MergeStats),
      (∀ kv ∈ m, (obter_id_veiculo kv.2).truthy = true) →
      ∀ kv ∈ (mesclar_loop m s D).1, (obter_id_veiculo kv.2).truthy = true := by
  induction D with
  | nil => intro m s hm kv hkv; exact hm kv hkv
  | cons p D ih =>
      intro m s hm kv hkv
      rw [mesclar_loop_cons] at hkv
      cases htp : (obter_id_veiculo p).truthy with
      | false =>
          simp only [htp, Bool.false_eq_true, if_false] at hkv
          exact ih m s hm kv hkv
      | true =>
          simp only [htp, if_true] at hkv
          have hins : ∀ kw ∈ dinsert m (obter_id_veiculo p) p,
              (obter_id_veiculo kw.2).truthy = true := by
            intro kw hkw
            rcases mem_dinsert _ _ _ _ hkw with h | h
            · exact hm kw h
            · rw [h]; exact htp
          cases hl : dlookup m (obter_id_veiculo p) with
          | none =>
              rw [hl] at hkv
              exact ih _ _ hins kv hkv
          | some antiga =>
              rw [hl] at hkv
              by_cases he : antiga = p
              · simp only [he, ne_eq, not_true_eq_false, ite_false] at hkv
                exact ih _ _ hm kv hkv
              · simp only [ne_eq, he, not_false_eq_true, ite_true] at hkv
                exact ih _ _ hins kv hkv

/-- Every record of the merge output has a resolvable identifier. -/
theorem mesclar_output_truthy (ex nov : List Record) :
    ∀ p ∈ (mesclar_posicoes ex nov).1, (obter_id_veiculo p).truthy = true := by
  intro p hp
  simp only [mesclar_posicoes, dvalues] at hp
  obtain ⟨kv, hkv, rfl⟩ := List.mem_map.mp hp
  exact mesclar_loop_truthy nov _ _
    (construir_mapa_truthy ex [] (by intro kv h; simp at h)) kv hkv

/-- C3 as stated ("for every dataset D") is false: a record without a
resolvable identifier is dropped from the index and skipped as incoming,
so it vanishes from `merge(D, D)` — the output is not `D` even as a set
of records. -/
theorem C3_counterexample :
    (mesclar_posicoes [[("x", JVal.str "v")]] [[("x", JVal.str "v")]]).1 = [] ∧
    [[("x", JVal.str "v")]] ≠ ([] : List Record) := by decide

/-- C3 amended: for every dataset whose records all have a resolvable
identifier, pairwise distinct (the invariant every merge output
satisfies), `merge(D, D)` returns `D` itself — unchanged even as a list
— with 0 new, 0 updated, and every record counted as kept. -/
theorem C3_idempotencia (D : List Record)
    (ht : ∀ r ∈ D, (obter_id_veiculo r).truthy = true)
    (hnd : (D.map obter_id_veiculo).Nodup) :
    mesclar_posicoes D D = (D, ⟨0, 0, D.length⟩) := by
  have hidx : construir_mapa [] D = D.map fun r => (obter_id_veiculo r, r) := by
    rw [construir_mapa_append D [] ht hnd (by intro r _; rfl)]
    simp
  simp only [mesclar_posicoes, hidx]
  rw [mesclar_loop_kept D _ _ (fun p hp => ⟨ht p hp, dlookup_pares D p hnd hp⟩)]
  simp [dvalues, List.map_map, Function.comp_def]

/-- Witness for the amended C3 on a two-record keyed dataset. -/
theorem C3_idempotencia_witness :
    mesclar_posicoes
        [[("idVeiculo", JVal.str "1"), ("Placa", JVal.str "B")],
         [("idVeiculo", JVal.str "2")]]
        [[("idVeiculo", JVal.str "1"), ("Placa", JVal.str "B")],
         [("idVeiculo", JVal.str "2")]] =
      ([[("idVeiculo", JVal.str "1"), ("Placa", JVal.str "B")],
        [("idVeiculo", JVal.str "2")]], ⟨0, 0, 2⟩) :=
  C3_idempotencia _ (by decide) (by decide)

/-- C4 as stated ("for every dataset D") is false: when `D` itself holds a
record without a resolvable identifier, that record is dropped from the
index and hence from the output, so `merge(D, [unkeyed]) ≠ D`. -/
theorem C4_counterexample :
    (mesclar_posicoes [[("x", JVal.str "v")]] [[("y", JVal.str "w")]]).1 = [] ∧
    [[("x", JVal.str "v")]] ≠ ([] : List Record) := by decide

/-- C4 amended: incoming records without a resolvable identifier never
appear in the merge output (every output record has a resolvable
identifier), and for a dataset whose records all have resolvable,
pairwise-distinct identifiers, merging with a list of only unkeyed
records returns the dataset unchanged with zero counts. -/
theorem C4_sem_chave (D N : List Record)
    (ht : ∀ r ∈ D, (obter_id_veiculo r).truthy = true)
    (hnd : (D.map obter_id_veiculo).Nodup)
    (hN : ∀ r ∈ N, (obter_id_veiculo r).truthy = false) :
    mesclar_posicoes D N = (D, ⟨0, 0, 0⟩) ∧
    (∀ (ex nov : List Record), ∀ p ∈ (mesclar_posicoes ex nov).1,
      (obter_id_veiculo p).truthy = true) := by
  constructor
  · have hidx : construir_mapa [] D = D.map fun r => (obter_id_veiculo r, r) := by
      rw [construir_mapa_append D [] ht hnd (by intro r _; rfl)]
      simp
    simp only [mesclar_posicoes, hidx]
    rw [mesclar_loop_all_skip N _ _ hN]
    simp [dvalues, List.map_map, Function.comp_def]
  · exact mesclar_output_truthy

/-- Witness for the amended C4. -/
theorem C4_sem_chave_witness :
    mesclar_posicoes [[("idVeiculo", JVal.str "1")]] [[("y", JVal.str "w")]] =
      ([[("idVeiculo", JVal.str "1")]], ⟨0, 0, 0⟩) ∧
    (∀ (ex nov : List Record), ∀ p ∈ (mesclar_posicoes ex nov).1,
      (obter_id_veiculo p).truthy = true) :=
  C4_sem_chave _ _ (by decide) (by decide) (by decide)

/-- C9: identifier resolution takes the first truthy candidate value, so a
record all of whose identifier fields hold falsy values (0, "", null, or
are absent) resolves to no identifier: it is dropped from the merge
index, never appears in merge output, and is excluded from the summary;
and a falsy candidate is passed over in favour of a later truthy one. -/
theorem C9_id_falso :
    (∀ (D₁ D₂ : List Record) (r : Record) (m : DictJ),
        (obter_id_veiculo r).truthy = false →
        construir_mapa m (D₁ ++ r :: D₂) = construir_mapa m (D₁ ++ D₂)) ∧
    (∀ (ex nov : List Record) (r : Record),
        (obter_id_veiculo r).truthy = false →
        r ∉ (mesclar_posicoes ex nov).1) ∧
    (∀ (D₁ D₂ : List Record) (r : Record),
        (obter_id_veiculo r).truthy = false →
        gerar_resumo (D₁ ++ r :: D₂) = gerar_resumo (D₁ ++ D₂)) ∧
    (∀ r : Record,
        (pyGet r "idVeiculo").truthy = false →
        (pyGet r "IdVeiculo").truthy = false →
        (pyGet r "id").truthy = false →
        (pyGet r "Id").truthy = false →
        (pyGet r "VeiculoId").truthy = false →
        (pyGet r "veiculoId").truthy = false →
        (obter_id_veiculo r).truthy = false) ∧
    obter_id_veiculo [("idVeiculo", JVal.num 0), ("id", JVal.num 7)] = JVal.num 7 := by
  refine ⟨?_, ?_, ?_, ?_, ?_⟩
  · intro D₁ D₂ r m hr
    induction D₁ generalizing m with
    | nil =>
        simp only [List.nil_append, construir_mapa_cons, hr, Bool.false_eq_true, if_false]
    | cons p D₁ ih =>
        rw [List.cons_append, List.cons_append, construir_mapa_cons, construir_mapa_cons]
        exact ih _
  · intro ex nov r hr hmem
    rw [mesclar_output_truthy ex nov r hmem] at hr
    exact Bool.noConfusion hr
  · intro D₁ D₂ r hr
    unfold gerar_resumo
    congr 1
    unfold resumoEntries
    rw [List.filterMap_append, List.filterMap_append]
    congr 1
    simp [hr]
  · intro r h1 h2 h3 h4 h5 h6
    simp [obter_id_veiculo, pyOr, h1, h2, h3, h4, h5, h6]
  · simp [obter_id_veiculo, pyOr, pyGet, getField, JVal.truthy]

/-- Witness for C9 at a record whose only identifier field holds "". -/
theorem C9_id_falso_witness :
    construir_mapa [] ([] ++ [("Id", JVal.str "")] :: []) = construir_mapa [] ([] ++ []) ∧
    [("Id", JVal.str "")] ∉
      (mesclar_posicoes [[("idVeiculo", JVal.str "1")]] [[("Id", JVal.str "")]]).1 ∧
    gerar_resumo ([[("idVeiculo", JVal.str "1")]] ++ [("Id", JVal.str "")] :: []) =
      gerar_resumo ([[("idVeiculo", JVal.str "1")]] ++ []) ∧
    (obter_id_veiculo [("Id", JVal.str "")]).truthy = false :=
  ⟨C9_id_falso.1 [] [] _ [] (by decide),
   C9_id_falso.2.1 _ _ _ (by decide),
   C9_id_falso.2.2.1 [[("idVeiculo", JVal.str "1")]] [] _ (by decide),
   C9_id_falso.2.2.2.1 _ (by decide) (by decide) (by decide) (by decide) (by decide)
     (by decide)⟩

/-!  Renderer lemmas and claims. -/

/-- A record whose coordinate gate fails or whose coordinates do not
parse contributes nothing to the rendered coordinates; every other
record of the batch is unaffected. -/
theorem gerar_mapa_coords_skip (D₁ D₂ : List Record) (r : Record)
    (h : ((pyGet r "Latitude").truthy && (pyGet r "Longitude").truthy) = false ∨
      parseCoord (pyGet r "Latitude") = none ∨
      parseCoord (pyGet r "Longitude") = none) :
    gerar_mapa_coords (D₁ ++ r :: D₂) = gerar_mapa_coords (D₁ ++ D₂) := by
  unfold gerar_mapa_coords
  rw [List.filterMap_append, List.filterMap_append]
  congr 1
  apply List.filterMap_cons_none
  simp only
  cases hg : ((pyGet r "Latitude").truthy && (pyGet r "Longitude").truthy) with
  | false => simp [hg]
  | true =>
      rcases h with h | h | h
      · rw [hg] at h; exact absurd h (by simp)
      · cases hlon : parseCoord (pyGet r "Longitude") <;> simp [hg, h, hlon]
      · cases hlat : parseCoord (pyGet r "Latitude") <;> simp [hg, h, hlat]

/-- C7: coordinate parsing coerces the raw value to a string, replaces a
comma decimal separator with a period and parses a float, so the string
"-23,55" parses to -23.55 (= -471/20 exactly); and a record whose
coordinates are missing (falsy gate) or unparsable is skipped while the
rest of the batch is still rendered. -/
theorem C7_parse_coordenadas :
    parseCoord (JVal.str "-23,55") = some (-471 / 20 : Rat) ∧
    (∀ s : String, parseCoord (JVal.str s) =
      parsePyFloat (s.toList.map fun c => if c == ',' then '.' else c)) ∧
    (∀ (D₁ D₂ : List Record) (r : Record),
        ((pyGet r "Latitude").truthy && (pyGet r "Longitude").truthy) = false ∨
        parseCoord (pyGet r "Latitude") = none ∨
        parseCoord (pyGet r "Longitude") = none →
        gerar_mapa_coords (D₁ ++ r :: D₂) = gerar_mapa_coords (D₁ ++ D₂)) := by
  refine ⟨?_, fun s => rfl, gerar_mapa_coords_skip⟩
  have h1 : scanFloat ("-23,55".toList.map fun c => if c == ',' then '.' else c)
      = some ⟨true, ['2', '3'], ['5', '5'], none⟩ := by decide
  show parsePyFloat _ = _
  rw [parsePyFloat, h1]
  show some (valueOf _) = _
  congr 1
  simp [valueOf, show natOfDigits ['2', '3'] = 23 from by decide,
    show natOfDigits ['5', '5'] = 55 from by decide]
  norm_num

/-- Witness for C7: a record with a missing latitude is skipped while the
surrounding batch is unaffected. -/
theorem C7_parse_coordenadas_witness :
    gerar_mapa_coords ([[("Latitude", JVal.str "1"), ("Longitude", JVal.str "2")]] ++
        [("Longitude", JVal.str "10")] :: []) =
      gerar_mapa_coords ([[("Latitude", JVal.str "1"), ("Longitude", JVal.str "2")]] ++ []) :=
  C7_parse_coordenadas.2.2 _ [] _ (Or.inl (by decide))

/-- C10: a marker is plotted only when both raw coordinates are truthy
before parsing, so a record whose latitude or longitude is the number 0,
the empty string or null contributes no marker and no coordinate to the
auto-fit viewport — even though numeric zero itself parses to a valid
coordinate (and the truthy string "0" would not be skipped). -/
theorem C10_porta_truthy :
    (∀ (D₁ D₂ : List Record) (r : Record),
        (pyGet r "Latitude").truthy = false ∨ (pyGet r "Longitude").truthy = false →
        gerar_mapa_coords (D₁ ++ r :: D₂) = gerar_mapa_coords (D₁ ++ D₂) ∧
        ajuste_viewport (gerar_mapa_coords (D₁ ++ r :: D₂)) =
          ajuste_viewport (gerar_mapa_coords (D₁ ++ D₂))) ∧
    (JVal.num 0).truthy = false ∧
    (JVal.str "").truthy = false ∧
    JVal.null.truthy = false ∧
    parseCoord (JVal.num 0) = some 0 ∧
    (JVal.str "0").truthy = true := by
  refine ⟨?_, by decide, by decide, by decide, rfl, by decide⟩
  intro D₁ D₂ r h
  have hg : ((pyGet r "Latitude").truthy && (pyGet r "Longitude").truthy) = false := by
    rcases h with h | h <;> simp [h]
  have he := gerar_mapa_coords_skip D₁ D₂ r (Or.inl hg)
  exact ⟨he, by rw [he]⟩

/-- Witness for C10: an empty-string latitude suppresses the marker and
leaves the viewport of the remaining batch unchanged. -/
theorem C10_porta_truthy_witness :
    gerar_mapa_coords ([[("Latitude", JVal.str "1"), ("Longitude", JVal.str "2")]] ++
        [("Latitude", JVal.str ""), ("Longitude", JVal.str "3")] :: []) =
      gerar_mapa_coords ([[("Latitude", JVal.str "1"), ("Longitude", JVal.str "2")]] ++ []) ∧
    ajuste_viewport (gerar_mapa_coords
        ([[("Latitude", JVal.str "1"), ("Longitude", JVal.str "2")]] ++
          [("Latitude", JVal.str ""), ("Longitude", JVal.str "3")] :: [])) =
      ajuste_viewport (gerar_mapa_coords
        ([[("Latitude", JVal.str "1"), ("Longitude", JVal.str "2")]] ++ [])) :=
  C10_porta_truthy.1 _ [] _ (Or.inl (by decide))

/-!  Order lemmas for the summary sort, and the summary claim. -/

/-- Code-point lexicographic comparison is transitive. -/
theorem strLe_trans : ∀ a b c : List Char,
    strLe a b = true → strLe b c = true → strLe a c = true := by
  intro a
  induction a with
  | nil => intro b c _ _; rfl
  | cons x xs ih =>
      intro b c hab hbc
      cases b with
      | nil => exact absurd hab (by simp [strLe])
      | cons y ys =>
          cases c with
          | nil => exact absurd hbc (by simp [strLe])
          | cons z zs =>
              simp only [strLe] at hab hbc ⊢
              by_cases hxy : x.toNat = y.toNat <;> by_cases hyz : y.toNat = z.toNat
              · rw [if_pos hxy] at hab
                rw [if_pos hyz] at hbc
                rw [if_pos (hxy.trans hyz)]
                exact ih ys zs hab hbc
              · rw [if_pos hxy] at hab
                rw [if_neg hyz] at hbc
                have hlt : y.toNat < z.toNat := of_decide_eq_true hbc
                rw [if_neg (by omega)]
                exact decide_eq_true (by omega)
              · rw [if_neg hxy] at hab
                have hlt : x.toNat < y.toNat := of_decide_eq_true hab
                rw [if_neg (by omega)]
                exact decide_eq_true (by omega)
              · rw [if_neg hxy] at hab
                rw [if_neg hyz] at hbc
                have h1 : x.toNat < y.toNat := of_decide_eq_true hab
                have h2 : y.toNat < z.toNat := of_decide_eq_true hbc
                rw [if_neg (by omega)]
                exact decide_eq_true (by omega)

/-- Code-point lexicographic comparison is total. -/
theorem strLe_total : ∀ a b : List Char, (strLe a b || strLe b a) = true := by
  intro a
  induction a with
  | nil => intro b; simp [strLe]
  | cons x xs ih =>
      intro b
      cases b with
      | nil => simp [strLe]
      | cons y ys =>
          simp only [strLe]
          by_cases hxy : x.toNat = y.toNat
          · rw [if_pos hxy, if_pos hxy.symm]
            exact ih ys
          · rw [if_neg hxy, if_neg (fun h => hxy h.symm)]
            rcases Nat.lt_or_ge x.toNat y.toNat with h | h
            · simp [decide_eq_true h]
            · have hgt : y.toNat < x.toNat := by omega
              simp [decide_eq_true hgt]

/-- The plate comparison is transitive. -/
theorem placaLe_trans : ∀ a b c : Record,
    placaLe a b = true → placaLe b c = true → placaLe a c = true := by
  intro a b c hab hbc
  unfold placaLe at hab hbc ⊢
  by_cases ha : (pyGet a "Placa").isStr = true
  · rw [if_pos ha] at hab
    rw [if_pos ha]
    simp only [Bool.and_eq_true] at hab
    obtain ⟨hb, hs1⟩ := hab
    rw [if_pos hb] at hbc
    simp only [Bool.and_eq_true] at hbc
    obtain ⟨hc, hs2⟩ := hbc
    simp only [Bool.and_eq_true]
    exact ⟨hc, strLe_trans _ _ _ hs1 hs2⟩
  · rw [if_neg ha]

/-- The plate comparison is total. -/
theorem placaLe_total : ∀ a b : Record, (placaLe a b || placaLe b a) = true := by
  intro a b
  unfold placaLe
  by_cases ha : (pyGet a "Placa").isStr = true <;>
    by_cases hb : (pyGet b "Placa").isStr = true
  · rw [if_pos ha, if_pos hb]
    simp only [ha, hb, Bool.true_and]
    exact strLe_total _ _
  · rw [if_pos ha, if_neg hb]
    simp
  · rw [if_neg ha]
    simp
  · rw [if_neg ha]
    simp

/-- Every summary entry is the `{Placa, idVeiculo}` pair of a source
record with a resolvable identifier. -/
theorem resumo_entry_shape (D : List Record) (a : Record) (ha : a ∈ resumoEntries D) :
    ∃ r ∈ D, a = [("Placa", obter_placa r), ("idVeiculo", obter_id_veiculo r)] := by
  unfold resumoEntries at ha
  obtain ⟨r, hr, hfr⟩ := List.mem_filterMap.mp ha
  by_cases ht : (obter_id_veiculo r).truthy = true
  · rw [if_pos ht] at hfr
    exact ⟨r, hr, (Option.some.inj hfr).symm⟩
  · rw [if_neg ht] at hfr
    exact absurd hfr (by simp)

/-- C5: the summary contains exactly one `{Placa, idVeiculo}` entry per
record with a resolvable identifier (a permutation of the entry list
built from the dataset, which excludes unkeyed records), the plate
resolves through the fixed priority list defaulting to the sentinel
"SEM_PLACA" when no spelling is present, and — whenever the resolved
plates are strings, the case Python's sort accepts — the output is
sorted by plate in non-decreasing code-point lexicographic order. -/
theorem C5_resumo (D : List Record)
    (hstr : ∀ r ∈ D, (obter_placa r).isStr = true) :
    (gerar_resumo D).Perm (resumoEntries D) ∧
    List.Pairwise (fun a b => strLe (plateOf a).toList (plateOf b).toList = true)
      (gerar_resumo D) ∧
    (∀ r : Record, getField r "Placa" = none → getField r "placa" = none →
        getField r "PLACA" = none → obter_placa r = JVal.str "SEM_PLACA") := by
  refine ⟨List.mergeSort_perm _ _, ?_, ?_⟩
  · have hsorted := List.sorted_mergeSort placaLe_trans placaLe_total (resumoEntries D)
    refine hsorted.imp_of_mem ?_
    intro a b hma hmb hab
    have hsa : (pyGet a "Placa").isStr = true := by
      obtain ⟨r, hr, rfl⟩ := resumo_entry_shape D a (List.mem_mergeSort.mp hma)
      simpa [pyGet, getField] using hstr r hr
    rw [placaLe, if_pos hsa] at hab
    simp only [Bool.and_eq_true] at hab
    exact hab.2
  · intro r h1 h2 h3
    simp [obter_placa, pyOr, pyGet, h1, h2, h3, JVal.truthy]

/-- Witness for C5 on a two-record dataset with out-of-order plates. -/
theorem C5_resumo_witness :
    (gerar_resumo [[("idVeiculo", JVal.str "2"), ("Placa", JVal.str "XYZ9")],
        [("idVeiculo", JVal.str "1"), ("Placa", JVal.str "ABC1")]]).Perm
      (resumoEntries [[("idVeiculo", JVal.str "2"), ("Placa", JVal.str "XYZ9")],
        [("idVeiculo", JVal.str "1"), ("Placa", JVal.str "ABC1")]]) ∧
    List.Pairwise (fun a b => strLe (plateOf a).toList (plateOf b).toList = true)
      (gerar_resumo [[("idVeiculo", JVal.str "2"), ("Placa", JVal.str "XYZ9")],
        [("idVeiculo", JVal.str "1"), ("Placa", JVal.str "ABC1")]]) ∧
    (∀ r : Record, getField r "Placa" = none → getField r "placa" = none →
        getField r "PLACA" = none → obter_placa r = JVal.str "SEM_PLACA") :=
  C5_resumo _ (by decide)

end Veic3S
